import Mathlib

/-!
Verification of the homework-status notification bot (`homework.py`).

The source is a single-process polling loop: fetch the homework API,
validate the payload, format the first record, send a Telegram message,
with deduplication against the previously sent message.  We embed the
program shallowly: Python values become `PyVal`, exceptions become the
`Err` sum type carried in `Except`, logging becomes an explicit
`List LogEntry` output, and the external transports (HTTP, Telegram)
become per-iteration environment oracles.
-/

/-- Python-like values as they occur in this program: strings, ints,
lists, dicts with (hashable, here string) keys, and `None`. -/
inductive PyVal where
  | str (s : String)
  | int (n : Int)
  | list (xs : List PyVal)
  | dict (kvs : List (String × PyVal))
  | none

/-- Log levels used by the program (`logging.debug/error/critical`). -/
inductive LogLevel where
  | debug
  | error
  | critical
deriving DecidableEq

/-- One log record: level and message. -/
structure LogEntry where
  level : LogLevel
  msg : String
deriving DecidableEq

/-- Exception kinds raised by the program.  `APIAnswerError` and
`SendMessageError` are imported from `exceptions.py`, which is not part
of the provided sources; modelled from the spec as plain
message-carrying error kinds (spec §7 "Error kinds"). `TypeError` and
`KeyError` are the Python builtins.  The payload is the exception's
argument string. -/
inductive Err where
  | typeError (msg : String)
  | keyError (msg : String)
  | apiAnswerError (msg : String)
  | sendMessageError (msg : String)
deriving DecidableEq

/-- Python `str(exc)`: for `KeyError` this is `repr` of the single
argument (so a quoted string); for the others it is the message. -/
def errStr : Err → String
  | .typeError m => m
  | .keyError m => "'" ++ m ++ "'"
  | .apiAnswerError m => m
  | .sendMessageError m => m

/-- Python truthiness of a value. -/
def pyTruthy : PyVal → Bool
  | .str s => s != ""
  | .int n => n != 0
  | .list xs => !xs.isEmpty
  | .dict kvs => !kvs.isEmpty
  | .none => false

/-- Python `a or b`: `a` if truthy, else `b`. -/
def pyOr (a b : PyVal) : PyVal :=
  if pyTruthy a then a else b

mutual

/-- Python `==` on our values (all modelled values are hashable kinds
compared structurally; there are no bools/floats in this program's data). -/
def pyEq : PyVal → PyVal → Bool
  | .str a, .str b => a == b
  | .int a, .int b => a == b
  | .list xs, .list ys => pyEqList xs ys
  | .dict xs, .dict ys => pyEqDict xs ys
  | .none, .none => true
  | _, _ => false

def pyEqList : List PyVal → List PyVal → Bool
  | [], [] => true
  | x :: xs, y :: ys => pyEq x y && pyEqList xs ys
  | _, _ => false

def pyEqDict : List (String × PyVal) → List (String × PyVal) → Bool
  | [], [] => true
  | (k, v) :: xs, (l, w) :: ys => k == l && pyEq v w && pyEqDict xs ys
  | _, _ => false

end

mutual

/-- Python `repr` of a value (string escaping inside reprs is not
modelled; no message in this program depends on it). -/
def pyRepr : PyVal → String
  | .str s => "'" ++ s ++ "'"
  | .int n => toString n
  | .list xs => "[" ++ String.intercalate ", " (pyReprList xs) ++ "]"
  | .dict kvs => "\x7b" ++ String.intercalate ", " (pyReprDict kvs) ++ "\x7d"
  | .none => "None"

def pyReprList : List PyVal → List String
  | [] => []
  | x :: xs => pyRepr x :: pyReprList xs

def pyReprDict : List (String × PyVal) → List String
  | [] => []
  | (k, v) :: kvs => ("'" ++ k ++ "': " ++ pyRepr v) :: pyReprDict kvs

end

/-- Python `str()` as used by f-string interpolation. -/
def pyStrOf : PyVal → String
  | .str s => s
  | v => pyRepr v

/-- `needle in hay` for strings: substring test. -/
def strHasSubstr (hay needle : String) : Bool :=
  (List.range (hay.length + 1)).any (fun i => needle.isPrefixOf (hay.drop i))

/-- Python membership `item in container`.  Non-container right operands
and unhashable items probed against a dict raise `TypeError`. -/
def pyContainsVal (container item : PyVal) : Except Err Bool :=
  match container with
  | .dict kvs =>
    match item with
    | .str k => .ok ((kvs.lookup k).isSome)
    | .int _ => .ok false
    | .none => .ok false
    | .list _ => .error (.typeError "unhashable type: 'list'")
    | .dict _ => .error (.typeError "unhashable type: 'dict'")
  | .list xs => .ok (xs.any (fun x => pyEq x item))
  | .str s =>
    match item with
    | .str k => .ok (strHasSubstr s k)
    | _ => .error (.typeError "'in <string>' requires string as left operand")
  | .int _ => .error (.typeError "argument of type 'int' is not iterable")
  | .none => .error (.typeError "argument of type 'NoneType' is not iterable")

/-- Python subscript `container[k]` with a string key, as used in
`homework['homework_name']` etc.: `KeyError` on a dict without the key,
`TypeError` on non-dict containers. -/
def pySubscriptStr (container : PyVal) (k : String) : Except Err PyVal :=
  match container with
  | .dict kvs =>
    match kvs.lookup k with
    | some v => .ok v
    | Option.none => .error (.keyError k)
  | .list _ => .error (.typeError "list indices must be integers or slices, not str")
  | .str _ => .error (.typeError "string indices must be integers")
  | .int _ => .error (.typeError "'int' object is not subscriptable")
  | .none => .error (.typeError "'NoneType' object is not subscriptable")

/-- Python `d.get(k, default)` on a dict value. -/
def pyDictGetD (v : PyVal) (k : String) (d : PyVal) : PyVal :=
  match v with
  | .dict kvs =>
    match kvs.lookup k with
    | some x => x
    | Option.none => d
  | _ => d

/-! ## Program constants (`homework.py` module level) -/

def RETRY_PERIOD : Nat := 600

def ENDPOINT : String := "https://practicum.yandex.ru/api/user_api/homework_statuses/"

def HOMEWORK_VERDICTS : List (String × String) :=
  [("approved", "Работа проверена: ревьюеру всё понравилось. Ура!"),
   ("reviewing", "Работа взята на проверку ревьюером."),
   ("rejected", "Работа проверена: у ревьюера есть замечания.")]

/-- `HOMEWORK_VERDICTS` as a Python dict value, for membership tests. -/
def verdictsDict : PyVal :=
  .dict (HOMEWORK_VERDICTS.map (fun p => (p.1, PyVal.str p.2)))

/-- The message of the (defective) missing-keys guard in `parse_status`. -/
def missingKeysMsg : String :=
  "Отсутству необходимые ключи \"homework_name\", \"status\""

/-- The message of the undocumented-status error in `parse_status`. -/
def undocStatusMsg : String :=
  "Недокументированный статус домашней работы обнаружен в ответе API"

/-- The message logged and carried by `SendMessageError` in `send_message`. -/
def telegramFailMsg : String :=
  "Сбой при отправке сообщения в Telegram"

/-! ## External-transport oracles -/

/-- An HTTP response as the `requests` library hands it back: a status
code and the JSON-decoded body. -/
structure HttpResponse where
  status_code : Nat
  body : PyVal

/-- Outcome of one `requests.get` call: either the transport raises a
`requests.exceptions.RequestException`, or a response comes back. -/
inductive TransportResult where
  | exn
  | resp (r : HttpResponse)

/-! ## The program's functions -/

/-- `send_message(bot, message)`: log the attempt, send via the bot; a
`telegram.TelegramError` (oracle `tgFails`) is logged and converted to
`SendMessageError`. -/
def send_message (tgFails : Bool) (message : String) :
    List LogEntry × Except Err Unit :=
  let attempt : LogEntry := ⟨.debug, "Попытка отправть сообщение - " ++ message⟩
  if tgFails then
    ([attempt, ⟨.error, telegramFailMsg⟩], .error (.sendMessageError telegramFailMsg))
  else
    ([attempt, ⟨.debug, "Сообщение отправлено"⟩], .ok ())

/-- The query params of `get_api_answer`'s request:
`{'from_date': current_timestamp or int(time.time())}`. -/
def requestParams (now : Int) (current_timestamp : PyVal) : PyVal :=
  .dict [("from_date", pyOr current_timestamp (.int now))]

/-- `get_api_answer(current_timestamp)`: issue the GET request (oracle
`transport`); a transport exception or a non-200 status is logged at
error level and raised as `APIAnswerError`; on 200 return the parsed
JSON body. -/
def get_api_answer (now : Int) (transport : TransportResult)
    (current_timestamp : PyVal) : List LogEntry × Except Err PyVal :=
  let params := requestParams now current_timestamp
  match transport with
  | .exn =>
    let m := "Ошибка при запросе к эндпоинту: " ++ ENDPOINT ++
      ",параметры запроса: " ++ pyStrOf params
    ([⟨.error, m⟩], .error (.apiAnswerError m))
  | .resp r =>
    if r.status_code ≠ 200 then
      let m := "Ответ от эндпоинта отличный от 200" ++ "Эндпоинт: " ++ ENDPOINT ++
        ", Параметры: " ++ pyStrOf params ++ "," ++ "Ответ: " ++ toString r.status_code
      ([⟨.error, m⟩], .error (.apiAnswerError m))
    else
      ([], .ok r.body)

/-- `check_response(response)`: dict check (`TypeError`), `homeworks`
key check (`KeyError`), list check (`TypeError`); an empty list is
logged at debug level; returns the `homeworks` list. -/
def check_response (response : PyVal) : List LogEntry × Except Err (List PyVal) :=
  match response with
  | .dict kvs =>
    match kvs.lookup "homeworks" with
    | Option.none =>
      let m := "Отсутствует ключ homeworks в ответе API: " ++ pyStrOf response
      ([⟨.error, m⟩], .error (.keyError m))
    | some hws =>
      match hws with
      | .list homeworks =>
        let dbg : List LogEntry :=
          match homeworks with
          | [] => [⟨.debug, "Нет новых статусов домашек"⟩]
          | _ => []
        (dbg, .ok homeworks)
      | _ =>
        let m := "Тип ответа API - не список: " ++ pyStrOf response
        ([⟨.error, m⟩], .error (.typeError m))
  | _ =>
    let m := "Тип ответа API - не словарь: " ++ pyStrOf response
    ([⟨.error, m⟩], .error (.typeError m))

/-- `parse_status(homework)`: the guard
`('homework_name' or 'status') not in homework` (its left operand is the
Python `or`, evaluated first), then subscripts of both keys, then the
verdict-table membership and subscript, then the formatted message. -/
def parse_status (homework : PyVal) : List LogEntry × Except Err String :=
  match pyContainsVal homework (pyOr (.str "homework_name") (.str "status")) with
  | .error e => ([], .error e)
  | .ok mem =>
    if mem = false then
      ([⟨.error, missingKeysMsg⟩], .error (.keyError missingKeysMsg))
    else
      match pySubscriptStr homework "homework_name" with
      | .error e => ([], .error e)
      | .ok homework_name =>
        match pySubscriptStr homework "status" with
        | .error e => ([], .error e)
        | .ok homework_status =>
          match pyContainsVal verdictsDict homework_status with
          | .error e => ([], .error e)
          | .ok false =>
            ([⟨.error, undocStatusMsg⟩], .error (.keyError undocStatusMsg))
          | .ok true =>
            match homework_status with
            | .str s =>
              match HOMEWORK_VERDICTS.lookup s with
              | some verdict =>
                ([], .ok ("Изменился статус проверки работы \"" ++
                  pyStrOf homework_name ++ "\". " ++ verdict))
              | Option.none => ([], .error (.keyError s))
            | other => ([], .error (.keyError (pyStrOf other)))

/-! ## Startup configuration -/

/-- The three environment secrets read at module load; `Option.none`
models an unset variable. -/
structure Config where
  PRACTICUM_TOKEN : Option String
  TELEGRAM_TOKEN : Option String
  TELEGRAM_CHAT_ID : Option String

/-- `check_tokens()`: collect the names whose value is `None`; if any,
log at critical level and return `False`, else return `True`. -/
def check_tokens (c : Config) : List LogEntry × Bool :=
  let env_vars : List (String × Option String) :=
    [("PRACTICUM_TOKEN", c.PRACTICUM_TOKEN),
     ("TELEGRAM_TOKEN", c.TELEGRAM_TOKEN),
     ("TELEGRAM_CHAT_ID", c.TELEGRAM_CHAT_ID)]
  let none_env_vars :=
    (env_vars.filter (fun p => p.2.isNone)).map (fun p => p.1)
  match none_env_vars with
  | [] => ([], true)
  | _ =>
    ([⟨.critical,
       "Отсутствие обязательных переменных окружения во время запуска бота: " ++
       String.intercalate ", " none_env_vars⟩], false)

/-- What `main` does before its loop: exit with a diagnostic when
`check_tokens` is false, else build the bot and enter the loop. -/
inductive MainStart where
  | exit (msg : String)
  | enterLoop
deriving DecidableEq

/-- The startup branch of `main()`. -/
def mainStart (c : Config) : MainStart :=
  if (check_tokens c).2 = false then
    .exit "Проверьте, заданы ли все токены"
  else
    .enterLoop

/-! ## The polling loop (`main`) -/

/-- What the outside world does during one loop iteration: the clock
value `int(time.time())` would return, the outcome of the single HTTP
request, and whether a `bot.send_message` call would raise
`telegram.TelegramError`.  At most one send happens per iteration, so
one flag suffices. -/
structure Env where
  now : Int
  transport : TransportResult
  tgFails : Bool

/-- The two loop-local variables of `main`. -/
structure LoopState where
  current_timestamp : PyVal
  prev_message : String

/-- Result of the `try` block of one iteration: logs and Notifier
invocations emitted so far, the state as mutated when the block ended
(normally or by raising), and the raised exception if any. -/
structure TryOut where
  logs : List LogEntry
  sends : List String
  state : LoopState
  exc : Option Err

/-- Result of one whole loop iteration: `state = Option.none` means an
exception escaped the handlers and the process terminates. -/
structure StepOut where
  state : Option LoopState
  sends : List String
  logs : List LogEntry

/-- The `try` block of one iteration of `main`'s loop: fetch, validate,
update the cursor from `current_date`, and, when the first record's
message differs from `prev_message`, store it and send it. -/
def tryBody (env : Env) (s : LoopState) : TryOut :=
  let ga := get_api_answer env.now env.transport s.current_timestamp
  match ga.2 with
  | .error e => ⟨ga.1, [], s, some e⟩
  | .ok response =>
    let cr := check_response response
    match cr.2 with
    | .error e => ⟨ga.1 ++ cr.1, [], s, some e⟩
    | .ok homeworks =>
      let s1 : LoopState :=
        { s with current_timestamp := pyDictGetD response "current_date" s.current_timestamp }
      match homeworks with
      | [] => ⟨ga.1 ++ cr.1, [], s1, Option.none⟩
      | hw :: _ =>
        let ps := parse_status hw
        match ps.2 with
        | .error e => ⟨ga.1 ++ cr.1 ++ ps.1, [], s1, some e⟩
        | .ok message =>
          if message ≠ s1.prev_message then
            let s2 : LoopState := { s1 with prev_message := message }
            let sm := send_message env.tgFails message
            match sm.2 with
            | .ok _ => ⟨ga.1 ++ cr.1 ++ ps.1 ++ sm.1, [message], s2, Option.none⟩
            | .error e => ⟨ga.1 ++ cr.1 ++ ps.1 ++ sm.1, [message], s2, some e⟩
          else
            ⟨ga.1 ++ cr.1 ++ ps.1, [], s1, Option.none⟩

/-- One full iteration: the `try` block, then the two `except` clauses.
A `SendMessageError` is only logged; any other exception becomes
`Сбой в работе программы: {error}` and, when distinct from
`prev_message`, is stored, logged at error level and sent — a
`SendMessageError` from that send is uncaught (`state = Option.none`). -/
def stepIter (env : Env) (s : LoopState) : StepOut :=
  let t := tryBody env s
  match t.exc with
  | Option.none => ⟨some t.state, t.sends, t.logs⟩
  | some (.sendMessageError _) =>
    ⟨some t.state, t.sends, t.logs ++ [⟨.error, telegramFailMsg⟩]⟩
  | some e =>
    let message := "Сбой в работе программы: " ++ errStr e
    if message ≠ t.state.prev_message then
      let s2 : LoopState := { t.state with prev_message := message }
      let sm := send_message env.tgFails message
      match sm.2 with
      | .ok _ => ⟨some s2, t.sends ++ [message], t.logs ++ ⟨.error, message⟩ :: sm.1⟩
      | .error _ => ⟨Option.none, t.sends ++ [message], t.logs ++ ⟨.error, message⟩ :: sm.1⟩
    else
      ⟨some t.state, t.sends, t.logs⟩

/-- The loop state `main` starts with:
`current_timestamp = int(time.time())`, `prev_message = ''`. -/
def initState (now0 : Int) : LoopState :=
  ⟨.int now0, ""⟩

/-- Run the loop for as many iterations as there are environments (the
real loop is infinite; any finite prefix is covered).  Returns the
concatenated trace of Notifier invocations and the final state,
`Option.none` when an iteration crashed the process. -/
def runLoop : List Env → LoopState → List String × Option LoopState
  | [], s => ([], some s)
  | e :: es, s =>
    match (stepIter e s).state with
    | Option.none => ((stepIter e s).sends, Option.none)
    | some s' => ((stepIter e s).sends ++ (runLoop es s').1, (runLoop es s').2)

/-- The dispatch of the two `except` clauses of `main`'s loop on the
`try` block's outcome (the tail of `stepIter`, factored out so the
handler can be reasoned about in terms of the `try` block's result). -/
def exceptDispatch (tgFails : Bool) (logs : List LogEntry)
    (sends : List String) (st : LoopState) : Option Err → StepOut
  | Option.none => ⟨some st, sends, logs⟩
  | some (.sendMessageError _) =>
    ⟨some st, sends, logs ++ [⟨.error, telegramFailMsg⟩]⟩
  | some e =>
    let message := "Сбой в работе программы: " ++ errStr e
    if message ≠ st.prev_message then
      match (send_message tgFails message).2 with
      | .ok _ => ⟨some ⟨st.current_timestamp, message⟩, sends ++ [message],
          logs ++ ⟨.error, message⟩ :: (send_message tgFails message).1⟩
      | .error _ => ⟨Option.none, sends ++ [message],
          logs ++ ⟨.error, message⟩ :: (send_message tgFails message).1⟩
    else ⟨some st, sends, logs⟩

/-! ## Helper lemmas -/

/-- The defective guard expression: Python `or` returns its first
truthy operand, so the tested key is always `'homework_name'`. -/
lemma pyOr_guard_eval :
    pyOr (.str "homework_name") (.str "status") = .str "homework_name" := by
  rfl

lemma lookup_map_pyStr (l : List (String × String)) (st : String) :
    (l.map (fun p => (p.1, PyVal.str p.2))).lookup st
      = (l.lookup st).map PyVal.str := by
  induction l with
  | nil => rfl
  | cons p l ih =>
    obtain ⟨k, v⟩ := p
    simp only [List.map, List.lookup]
    cases h : (st == k) <;> simp [h, ih]

/-- `parse_status` on a record with both keys and a documented status. -/
lemma parse_status_ok (kvs : List (String × PyVal)) (nameVal : PyVal)
    (st verdict : String)
    (hn : kvs.lookup "homework_name" = some nameVal)
    (hs : kvs.lookup "status" = some (.str st))
    (hv : HOMEWORK_VERDICTS.lookup st = some verdict) :
    parse_status (.dict kvs) =
      ([], .ok ("Изменился статус проверки работы \"" ++ pyStrOf nameVal ++
        "\". " ++ verdict)) := by
  simp [parse_status, pyOr_guard_eval, pyContainsVal, pySubscriptStr, hn, hs,
    verdictsDict, lookup_map_pyStr, hv]

/-- `parse_status` on a record with both keys and an undocumented
(string) status. -/
lemma parse_status_undoc (kvs : List (String × PyVal)) (nameVal : PyVal)
    (st : String)
    (hn : kvs.lookup "homework_name" = some nameVal)
    (hs : kvs.lookup "status" = some (.str st))
    (hv : HOMEWORK_VERDICTS.lookup st = Option.none) :
    parse_status (.dict kvs) =
      ([⟨.error, undocStatusMsg⟩], .error (.keyError undocStatusMsg)) := by
  simp [parse_status, pyOr_guard_eval, pyContainsVal, pySubscriptStr, hn, hs,
    verdictsDict, lookup_map_pyStr, hv]

/-! ## Claims about `parse_status` -/

/-- C3: for every homework record with both keys and a status in the
verdict table, `parse_status` returns exactly
`Изменился статус проверки работы "{name}". {verdict}` with the matched
verdict; for a record whose (string) status is not in the table it
fails with a `KeyError`-kind error. -/
theorem parse_status_verdict_table_spec :
    (∀ (kvs : List (String × PyVal)) (name st verdict : String),
      kvs.lookup "homework_name" = some (.str name) →
      kvs.lookup "status" = some (.str st) →
      HOMEWORK_VERDICTS.lookup st = some verdict →
      parse_status (.dict kvs) =
        ([], .ok ("Изменился статус проверки работы \"" ++ name ++ "\". " ++ verdict))) ∧
    (∀ (kvs : List (String × PyVal)) (nameVal : PyVal) (st : String),
      kvs.lookup "homework_name" = some nameVal →
      kvs.lookup "status" = some (.str st) →
      HOMEWORK_VERDICTS.lookup st = Option.none →
      parse_status (.dict kvs) =
        ([⟨.error, undocStatusMsg⟩], .error (.keyError undocStatusMsg))) := by
  constructor
  · intro kvs name st verdict hn hs hv
    simpa [pyStrOf] using parse_status_ok kvs (.str name) st verdict hn hs hv
  · intro kvs nameVal st hn hs hv
    exact parse_status_undoc kvs nameVal st hn hs hv

/-- Witness for C3 at the spec's concrete example and at an
undocumented status. -/
theorem parse_status_verdict_table_spec_witness :
    parse_status (.dict [("homework_name", PyVal.str "hw1"), ("status", PyVal.str "approved")]) =
      ([], .ok "Изменился статус проверки работы \"hw1\". Работа проверена: ревьюеру всё понравилось. Ура!") ∧
    parse_status (.dict [("homework_name", PyVal.str "hw1"), ("status", PyVal.str "unknown")]) =
      ([⟨.error, undocStatusMsg⟩], .error (.keyError undocStatusMsg)) := by
  constructor
  · exact parse_status_verdict_table_spec.1
      [("homework_name", PyVal.str "hw1"), ("status", PyVal.str "approved")]
      "hw1" "approved" "Работа проверена: ревьюеру всё понравилось. Ура!" rfl rfl rfl
  · exact parse_status_verdict_table_spec.2
      [("homework_name", PyVal.str "hw1"), ("status", PyVal.str "unknown")]
      (PyVal.str "hw1") "unknown" rfl rfl rfl

/-- C6: the guard `('homework_name' or 'status') not in homework` only
ever tests `'homework_name'`: on a mapping it raises its logged
`KeyError` exactly when `'homework_name'` is absent, and never raises —
neither the error log entry nor the `KeyError` with its message — when
`'homework_name'` is present, even if `'status'` is absent. -/
theorem parse_status_guard_precedence :
    pyOr (.str "homework_name") (.str "status") = .str "homework_name" ∧
    (∀ kvs : List (String × PyVal),
      kvs.lookup "homework_name" = Option.none →
      parse_status (.dict kvs) =
        ([⟨.error, missingKeysMsg⟩], .error (.keyError missingKeysMsg))) ∧
    (∀ (kvs : List (String × PyVal)) (v : PyVal),
      kvs.lookup "homework_name" = some v →
      (parse_status (.dict kvs)).2 ≠ .error (.keyError missingKeysMsg) ∧
      ⟨.error, missingKeysMsg⟩ ∉ (parse_status (.dict kvs)).1) := by
  refine ⟨pyOr_guard_eval, ?_, ?_⟩
  · intro kvs hn
    simp [parse_status, pyOr_guard_eval, pyContainsVal, hn]
  · intro kvs v hn
    have hStatus : ("status" : String) ≠ missingKeysMsg := by decide
    have hUndoc : undocStatusMsg ≠ missingKeysMsg := by decide
    have hUndoc' : missingKeysMsg ≠ undocStatusMsg := by decide
    cases hs : kvs.lookup "status" with
    | none =>
      simp [parse_status, pyOr_guard_eval, pyContainsVal, pySubscriptStr, hn, hs,
        hStatus]
    | some sv =>
      cases sv with
      | str st =>
        cases hv : HOMEWORK_VERDICTS.lookup st with
        | none =>
          simp [parse_status, pyOr_guard_eval, pyContainsVal, pySubscriptStr, hn, hs,
            verdictsDict, lookup_map_pyStr, hv, hUndoc, hUndoc']
        | some verdict =>
          simp [parse_status, pyOr_guard_eval, pyContainsVal, pySubscriptStr, hn, hs,
            verdictsDict, lookup_map_pyStr, hv]
      | int n =>
        simp [parse_status, pyOr_guard_eval, pyContainsVal, pySubscriptStr, hn, hs,
          verdictsDict, hUndoc, hUndoc']
      | list xs =>
        simp [parse_status, pyOr_guard_eval, pyContainsVal, pySubscriptStr, hn, hs,
          verdictsDict]
      | dict kvs2 =>
        simp [parse_status, pyOr_guard_eval, pyContainsVal, pySubscriptStr, hn, hs,
          verdictsDict]
      | none =>
        simp [parse_status, pyOr_guard_eval, pyContainsVal, pySubscriptStr, hn, hs,
          verdictsDict, hUndoc, hUndoc']

/-- Witness for C6: the guard fires on the empty mapping; it stays
silent on a mapping that has `'homework_name'` but no `'status'`. -/
theorem parse_status_guard_precedence_witness :
    parse_status (.dict []) =
      ([⟨.error, missingKeysMsg⟩], .error (.keyError missingKeysMsg)) ∧
    (parse_status (.dict [("homework_name", PyVal.str "hw1")])).2 ≠
      .error (.keyError missingKeysMsg) := by
  constructor
  · exact parse_status_guard_precedence.2.1 [] rfl
  · exact (parse_status_guard_precedence.2.2 [("homework_name", PyVal.str "hw1")]
      (PyVal.str "hw1") rfl).1

/-- C10: despite the defective guard, a mapping that has
`'homework_name'` but lacks `'status'` still fails: the direct subscript
`homework['status']` raises `KeyError('status')`, with no error log
entry written first; together with the guard case, a record missing
either required key raises a `KeyError`-kind error. -/
theorem parse_status_missing_status_spec :
    (∀ (kvs : List (String × PyVal)) (v : PyVal),
      kvs.lookup "homework_name" = some v →
      kvs.lookup "status" = Option.none →
      parse_status (.dict kvs) = ([], .error (.keyError "status"))) ∧
    (∀ kvs : List (String × PyVal),
      kvs.lookup "homework_name" = Option.none →
      ∃ m, (parse_status (.dict kvs)).2 = .error (.keyError m)) := by
  constructor
  · intro kvs v hn hs
    simp [parse_status, pyOr_guard_eval, pyContainsVal, pySubscriptStr, hn, hs]
  · intro kvs hn
    refine ⟨missingKeysMsg, ?_⟩
    simp [parse_status, pyOr_guard_eval, pyContainsVal, hn]

/-- Witness for C10: `{'homework_name': 'hw1'}` yields `KeyError('status')`
and an empty log trace. -/
theorem parse_status_missing_status_spec_witness :
    parse_status (.dict [("homework_name", PyVal.str "hw1")]) =
      ([], .error (.keyError "status")) ∧
    ∃ m, (parse_status (.dict [])).2 = .error (.keyError m) := by
  constructor
  · exact parse_status_missing_status_spec.1 [("homework_name", PyVal.str "hw1")]
      (PyVal.str "hw1") rfl rfl
  · exact parse_status_missing_status_spec.2 [] rfl

/-! ## Claims about `check_response` and `get_api_answer` -/

/-- C4: `check_response` fails with a `TypeError`-kind on a non-mapping,
with a `KeyError`-kind on a mapping without `'homeworks'`, with a
`TypeError`-kind when `'homeworks'` is not a list; `{'homeworks': []}`
returns the empty list without raising; and on every mapping passing
all checks it returns the `'homeworks'` list itself. -/
theorem check_response_spec :
    (∀ response : PyVal, (∀ kvs, response ≠ .dict kvs) →
      ∃ m, check_response response = ([⟨.error, m⟩], .error (.typeError m))) ∧
    (∀ kvs : List (String × PyVal), kvs.lookup "homeworks" = Option.none →
      ∃ m, check_response (.dict kvs) = ([⟨.error, m⟩], .error (.keyError m))) ∧
    (∀ (kvs : List (String × PyVal)) (v : PyVal),
      kvs.lookup "homeworks" = some v → (∀ xs, v ≠ .list xs) →
      ∃ m, check_response (.dict kvs) = ([⟨.error, m⟩], .error (.typeError m))) ∧
    (check_response (.dict [("homeworks", .list [])]) =
      ([⟨.debug, "Нет новых статусов домашек"⟩], .ok [])) ∧
    (∀ (kvs : List (String × PyVal)) (xs : List PyVal),
      kvs.lookup "homeworks" = some (.list xs) →
      (check_response (.dict kvs)).2 = .ok xs) := by
  refine ⟨?_, ?_, ?_, ?_, ?_⟩
  · intro response hnd
    cases response with
    | dict kvs => exact absurd rfl (hnd kvs)
    | str s => exact ⟨_, rfl⟩
    | int n => exact ⟨_, rfl⟩
    | list xs => exact ⟨_, rfl⟩
    | none => exact ⟨_, rfl⟩
  · intro kvs hk
    refine ⟨"Отсутствует ключ homeworks в ответе API: " ++ pyStrOf (.dict kvs), ?_⟩
    simp [check_response, hk]
  · intro kvs v hk hnl
    cases v with
    | list xs => exact absurd rfl (hnl xs)
    | str s =>
      refine ⟨"Тип ответа API - не список: " ++ pyStrOf (.dict kvs), ?_⟩
      simp [check_response, hk]
    | int n =>
      refine ⟨"Тип ответа API - не список: " ++ pyStrOf (.dict kvs), ?_⟩
      simp [check_response, hk]
    | dict kvs2 =>
      refine ⟨"Тип ответа API - не список: " ++ pyStrOf (.dict kvs), ?_⟩
      simp [check_response, hk]
    | none =>
      refine ⟨"Тип ответа API - не список: " ++ pyStrOf (.dict kvs), ?_⟩
      simp [check_response, hk]
  · rfl
  · intro kvs xs hk
    cases xs with
    | nil => simp [check_response, hk]
    | cons x xs => simp [check_response, hk]

/-- Witness for C4 on concrete inputs: a non-mapping, a mapping without
`'homeworks'`, a non-list `'homeworks'`, the empty list, and a singleton. -/
theorem check_response_spec_witness :
    (∃ m, check_response (.int 3) = ([⟨.error, m⟩], .error (.typeError m))) ∧
    (∃ m, check_response (.dict []) = ([⟨.error, m⟩], .error (.keyError m))) ∧
    (∃ m, check_response (.dict [("homeworks", .int 1)]) =
      ([⟨.error, m⟩], .error (.typeError m))) ∧
    check_response (.dict [("homeworks", .list [])]) =
      ([⟨.debug, "Нет новых статусов домашек"⟩], .ok []) ∧
    (check_response (.dict [("homeworks", .list [.int 5])])).2 = .ok [.int 5] := by
  refine ⟨?_, ?_, ?_, check_response_spec.2.2.2.1, ?_⟩
  · exact check_response_spec.1 (.int 3) (fun kvs h => by cases h)
  · exact check_response_spec.2.1 [] rfl
  · exact check_response_spec.2.2.1 [("homeworks", .int 1)] (.int 1) rfl
      (fun xs h => by cases h)
  · exact check_response_spec.2.2.2.2 [("homeworks", .list [.int 5])] [.int 5] rfl

/-- C5: `get_api_answer` fails with `APIAnswerError` exactly when the
transport raises or the HTTP status differs from 200, in both cases
with exactly one error-level log entry carrying the same message; on an
HTTP 200 response it returns the parsed JSON body with no log. -/
theorem get_api_answer_spec :
    (∀ (now : Int) (t : TransportResult) (ct : PyVal),
      (∃ m, (get_api_answer now t ct).2 = .error (.apiAnswerError m)) ↔
        (t = .exn ∨ ∃ r, t = .resp r ∧ r.status_code ≠ 200)) ∧
    (∀ (now : Int) (t : TransportResult) (ct : PyVal) (m : String),
      (get_api_answer now t ct).2 = .error (.apiAnswerError m) →
      (get_api_answer now t ct).1 = [⟨.error, m⟩]) ∧
    (∀ (now : Int) (r : HttpResponse) (ct : PyVal), r.status_code = 200 →
      get_api_answer now (.resp r) ct = ([], .ok r.body)) := by
  refine ⟨?_, ?_, ?_⟩
  · intro now t ct
    cases t with
    | exn => exact ⟨fun _ => Or.inl rfl, fun _ => ⟨_, rfl⟩⟩
    | resp r =>
      by_cases h : r.status_code = 200
      · constructor
        · rintro ⟨m, hm⟩
          simp [get_api_answer, h] at hm
        · rintro (hc | ⟨r', hr', hs⟩)
          · cases hc
          · cases hr'
            exact absurd h hs
      · constructor
        · intro _
          exact Or.inr ⟨r, rfl, h⟩
        · intro _
          refine ⟨"Ответ от эндпоинта отличный от 200" ++ "Эндпоинт: " ++ ENDPOINT ++
            ", Параметры: " ++ pyStrOf (requestParams now ct) ++ "," ++ "Ответ: " ++
            toString r.status_code, ?_⟩
          simp [get_api_answer, h]
  · intro now t ct m hm
    cases t with
    | exn =>
      simp [get_api_answer] at hm ⊢
      simp [hm]
    | resp r =>
      by_cases h : r.status_code = 200
      · simp [get_api_answer, h] at hm
      · simp [get_api_answer, h] at hm ⊢
        simp [hm]
  · intro now r ct h
    simp [get_api_answer, h]

/-- Witness for C5: a transport failure, a 404 response, and a 200
response evaluated concretely. -/
theorem get_api_answer_spec_witness :
    (∃ m, (get_api_answer 0 .exn (.int 1)).2 = .error (.apiAnswerError m) ∧
      (get_api_answer 0 .exn (.int 1)).1 = [⟨.error, m⟩]) ∧
    (∃ m, (get_api_answer 0 (.resp ⟨404, .none⟩) (.int 1)).2 =
        .error (.apiAnswerError m) ∧
      (get_api_answer 0 (.resp ⟨404, .none⟩) (.int 1)).1 = [⟨.error, m⟩]) ∧
    get_api_answer 0 (.resp ⟨200, .int 7⟩) (.int 1) = ([], .ok (.int 7)) := by
  refine ⟨?_, ?_, get_api_answer_spec.2.2 0 ⟨200, .int 7⟩ (.int 1) rfl⟩
  · obtain ⟨m, hm⟩ := (get_api_answer_spec.1 0 .exn (.int 1)).mpr (Or.inl rfl)
    exact ⟨m, hm, get_api_answer_spec.2.1 0 .exn (.int 1) m hm⟩
  · obtain ⟨m, hm⟩ := (get_api_answer_spec.1 0 (.resp ⟨404, .none⟩) (.int 1)).mpr
      (Or.inr ⟨⟨404, .none⟩, rfl, by decide⟩)
    exact ⟨m, hm, get_api_answer_spec.2.1 0 (.resp ⟨404, .none⟩) (.int 1) m hm⟩

/-! ## Claim about startup configuration -/

/-- C8: `check_tokens` returns `False` exactly when one of the three
secrets is unset — logging at critical level exactly then — and `main`
exits with a diagnostic exactly then, entering the polling loop only
when all three are present. -/
theorem startup_token_check :
    ∀ c : Config,
      ((check_tokens c).2 = false ↔
        (c.PRACTICUM_TOKEN = Option.none ∨ c.TELEGRAM_TOKEN = Option.none ∨
          c.TELEGRAM_CHAT_ID = Option.none)) ∧
      ((∃ m, ⟨LogLevel.critical, m⟩ ∈ (check_tokens c).1) ↔ (check_tokens c).2 = false) ∧
      ((∃ m, mainStart c = .exit m) ↔ (check_tokens c).2 = false) ∧
      (mainStart c = .enterLoop ↔ (check_tokens c).2 = true) := by
  intro c
  obtain ⟨p, t, i⟩ := c
  cases p <;> cases t <;> cases i <;>
    simp [check_tokens, mainStart, MainStart.exit.injEq]

/-! ## Loop-level helper lemmas -/

/-- `send_message` fails exactly when the Telegram oracle fails, and
then with `SendMessageError`. -/
lemma send_message_exc (tgFails : Bool) (message : String) :
    (send_message tgFails message).2 =
      (if tgFails then .error (.sendMessageError telegramFailMsg) else .ok ()) := by
  cases tgFails <;> rfl

/-- The `try` block either sends nothing and leaves `prev_message`
unchanged, or performs exactly one Notifier invocation, with a message
different from the incoming `prev_message`, having first stored that
message in `prev_message`; in the latter case the block ends normally
or with a `SendMessageError`. -/
lemma tryBody_spec (env : Env) (s : LoopState) :
    ((tryBody env s).sends = [] ∧ (tryBody env s).state.prev_message = s.prev_message)
    ∨ (∃ msg, (tryBody env s).sends = [msg] ∧ msg ≠ s.prev_message ∧
        (tryBody env s).state.prev_message = msg ∧
        ((tryBody env s).exc = Option.none ∨
          (tryBody env s).exc = some (.sendMessageError telegramFailMsg))) := by
  simp only [tryBody]
  split
  · exact Or.inl ⟨rfl, rfl⟩
  · split
    · exact Or.inl ⟨rfl, rfl⟩
    · split
      · exact Or.inl ⟨rfl, rfl⟩
      · split
        · exact Or.inl ⟨rfl, rfl⟩
        · split
          · rename_i message hps hne
            split
            · exact Or.inr ⟨message, rfl, hne, rfl, Or.inl rfl⟩
            · rename_i e hsm
              rw [send_message_exc] at hsm
              cases htg : env.tgFails with
              | false => rw [htg] at hsm; cases hsm
              | true =>
                rw [htg] at hsm
                simp only [if_pos rfl] at hsm
                injection hsm with he
                exact Or.inr ⟨message, rfl, hne, rfl, Or.inr (by rw [← he])⟩
          · exact Or.inl ⟨rfl, rfl⟩

/-- `stepIter` in terms of the `try` block's outcome: the dispatch of
the two `except` clauses. -/
lemma stepIter_eq (env : Env) (s : LoopState) (logs : List LogEntry)
    (sends : List String) (st : LoopState) (exc : Option Err)
    (htb : tryBody env s = ⟨logs, sends, st, exc⟩) :
    stepIter env s = exceptDispatch env.tgFails logs sends st exc := by
  simp only [stepIter, htb]
  cases exc with
  | none => rfl
  | some e => cases e <;> rfl

/-- One loop iteration either invokes the Notifier not at all and
preserves `prev_message`, or invokes it exactly once, with a message
different from the incoming `prev_message`, and any continuing state
stores exactly that message as the new `prev_message`. -/
lemma stepIter_spec (env : Env) (s : LoopState) :
    ((stepIter env s).sends = [] ∧
      ∀ s', (stepIter env s).state = some s' → s'.prev_message = s.prev_message)
    ∨ (∃ msg, (stepIter env s).sends = [msg] ∧ msg ≠ s.prev_message ∧
        ∀ s', (stepIter env s).state = some s' → s'.prev_message = msg) := by
  have h := tryBody_spec env s
  rcases htb : tryBody env s with ⟨logs, sends, st, exc⟩
  rw [htb] at h
  dsimp only at h
  rw [stepIter_eq env s logs sends st exc htb]
  rcases h with ⟨hs0, hp0⟩ | ⟨msg, hs1, hne, hp1, hexc⟩
  · cases exc with
    | none =>
      exact Or.inl ⟨hs0, fun s' hs' => by cases hs'; exact hp0⟩
    | some e =>
      cases e with
      | sendMessageError m =>
        exact Or.inl ⟨hs0, fun s' hs' => by cases hs'; exact hp0⟩
      | typeError m =>
        dsimp only [exceptDispatch]
        split
        · rename_i hc
          split
          · refine Or.inr ⟨"Сбой в работе программы: " ++ errStr (Err.typeError m),
              ?_, ?_, ?_⟩
            · rw [hs0]; rfl
            · rw [hp0] at hc; exact hc
            · intro s' hs'; cases hs'; rfl
          · refine Or.inr ⟨"Сбой в работе программы: " ++ errStr (Err.typeError m),
              ?_, ?_, ?_⟩
            · rw [hs0]; rfl
            · rw [hp0] at hc; exact hc
            · intro s' hs'; cases hs'
        · exact Or.inl ⟨hs0, fun s' hs' => by cases hs'; exact hp0⟩
      | keyError m =>
        dsimp only [exceptDispatch]
        split
        · rename_i hc
          split
          · refine Or.inr ⟨"Сбой в работе программы: " ++ errStr (Err.keyError m),
              ?_, ?_, ?_⟩
            · rw [hs0]; rfl
            · rw [hp0] at hc; exact hc
            · intro s' hs'; cases hs'; rfl
          · refine Or.inr ⟨"Сбой в работе программы: " ++ errStr (Err.keyError m),
              ?_, ?_, ?_⟩
            · rw [hs0]; rfl
            · rw [hp0] at hc; exact hc
            · intro s' hs'; cases hs'
        · exact Or.inl ⟨hs0, fun s' hs' => by cases hs'; exact hp0⟩
      | apiAnswerError m =>
        dsimp only [exceptDispatch]
        split
        · rename_i hc
          split
          · refine Or.inr ⟨"Сбой в работе программы: " ++ errStr (Err.apiAnswerError m),
              ?_, ?_, ?_⟩
            · rw [hs0]; rfl
            · rw [hp0] at hc; exact hc
            · intro s' hs'; cases hs'; rfl
          · refine Or.inr ⟨"Сбой в работе программы: " ++ errStr (Err.apiAnswerError m),
              ?_, ?_, ?_⟩
            · rw [hs0]; rfl
            · rw [hp0] at hc; exact hc
            · intro s' hs'; cases hs'
        · exact Or.inl ⟨hs0, fun s' hs' => by cases hs'; exact hp0⟩
  · rcases hexc with hexc | hexc <;> subst hexc
    · exact Or.inr ⟨msg, hs1, hne, fun s' hs' => by cases hs'; exact hp1⟩
    · exact Or.inr ⟨msg, hs1, hne, fun s' hs' => by cases hs'; exact hp1⟩

/-- Over any run, the current `prev_message` followed by the trace of
Notifier invocations has no two adjacent equal entries. -/
lemma runLoop_chain (envs : List Env) (s : LoopState) :
    List.Chain' (fun a b => a ≠ b) (s.prev_message :: (runLoop envs s).1) := by
  induction envs generalizing s with
  | nil => simp [runLoop]
  | cons e es ih =>
    rcases stepIter_spec e s with ⟨h0, hprev⟩ | ⟨msg, h0, hne, hprev⟩
    · cases hst : (stepIter e s).state with
      | none =>
        simp [runLoop, hst, h0]
      | some s' =>
        have hch := ih s'
        rw [hprev s' hst] at hch
        simpa [runLoop, hst, h0] using hch
    · cases hst : (stepIter e s).state with
      | none =>
        simp [runLoop, hst, h0, List.chain'_cons, Ne.symm hne]
      | some s' =>
        have hch := ih s'
        rw [hprev s' hst] at hch
        have : (runLoop (e :: es) s).1 = msg :: (runLoop es s').1 := by
          simp [runLoop, hst, h0]
        rw [this, List.chain'_cons]
        exact ⟨Ne.symm hne, hch⟩

/-! ## Claims about the loop -/

/-- C1: dedup invariant — across every sequence of loop iterations,
starting from `main`'s initial state, the trace of Notifier invocations
never contains two consecutive identical messages; in particular two
consecutive iterations producing the same formatted message invoke the
Notifier at most once between them. -/
theorem dedup_no_consecutive_duplicates (envs : List Env) (now0 : Int) :
    List.Chain' (fun a b => a ≠ b) (runLoop envs (initState now0)).1 :=
  (runLoop_chain envs (initState now0)).tail

/-- C9: in both the status-notification path and the
error-notification path, `prev_message` is updated to the new message
before the Notifier is invoked: whenever an iteration invokes the
Notifier with `m` — whether or not the send succeeds — the state of
every continuation already holds `prev_message = m` (so after a failed
send the identical message is suppressed, not retried), and `m`
differed from the stored `prev_message`. -/
theorem prev_updated_before_notifier (env : Env) (s : LoopState) (m : String)
    (h : (stepIter env s).sends = [m]) :
    m ≠ s.prev_message ∧
      ∀ s', (stepIter env s).state = some s' → s'.prev_message = m := by
  rcases stepIter_spec env s with ⟨h0, _⟩ | ⟨msg, h0, hne, hprev⟩
  · rw [h] at h0; cases h0
  · rw [h] at h0
    injection h0 with h1 _
    subst h1
    exact ⟨hne, hprev⟩

/-- Witness for C9: a successful parse whose send fails
(`tgFails = true`): the Notifier was invoked with the formatted message,
it differed from the stored `prev_message`, and the continuation state
already holds it. -/
theorem prev_updated_before_notifier_witness :
    ("Изменился статус проверки работы \"hw1\". Работа проверена: ревьюеру всё понравилось. Ура!" : String)
        ≠ (initState 5).prev_message ∧
      LoopState.prev_message
          ⟨.int 5,
            "Изменился статус проверки работы \"hw1\". Работа проверена: ревьюеру всё понравилось. Ура!"⟩ =
        "Изменился статус проверки работы \"hw1\". Работа проверена: ревьюеру всё понравилось. Ура!" := by
  have h := prev_updated_before_notifier
    ⟨0, .resp ⟨200, .dict [("homeworks",
        .list [.dict [("homework_name", .str "hw1"), ("status", .str "approved")]])]⟩, true⟩
    (initState 5)
    "Изменился статус проверки работы \"hw1\". Работа проверена: ревьюеру всё понравилось. Ура!"
    rfl
  exact ⟨h.1, h.2 ⟨.int 5, _⟩ rfl⟩

/-- C7: loop-level failure handling — a `SendMessageError` raised in an
iteration is caught and only logged, with no further notification
attempt; any other exception is converted into
`Сбой в работе программы: {error}` and, when that message differs from
the stored dedup message, it is logged at error level and sent, a
failure of that send itself terminating the process (and when it does
not differ, nothing is sent or logged further). -/
theorem loop_failure_handling (env : Env) (s : LoopState) :
    (∀ m, (tryBody env s).exc = some (.sendMessageError m) →
      stepIter env s = ⟨some (tryBody env s).state, (tryBody env s).sends,
        (tryBody env s).logs ++ [⟨.error, telegramFailMsg⟩]⟩) ∧
    (∀ e, (tryBody env s).exc = some e → (∀ m, e ≠ .sendMessageError m) →
      (("Сбой в работе программы: " ++ errStr e) ≠ (tryBody env s).state.prev_message →
        (stepIter env s).sends =
          (tryBody env s).sends ++ ["Сбой в работе программы: " ++ errStr e] ∧
        (⟨.error, "Сбой в работе программы: " ++ errStr e⟩ : LogEntry) ∈
          (stepIter env s).logs ∧
        ((stepIter env s).state = Option.none ↔ env.tgFails = true)) ∧
      (("Сбой в работе программы: " ++ errStr e) = (tryBody env s).state.prev_message →
        stepIter env s = ⟨some (tryBody env s).state, (tryBody env s).sends,
          (tryBody env s).logs⟩)) := by
  rcases htb : tryBody env s with ⟨logs, sends, st, exc⟩
  rw [stepIter_eq env s logs sends st exc htb]
  cases exc with
  | none =>
    constructor
    · intro m hm
      simp at hm
    · intro e he _
      simp at he
  | some e =>
    cases e with
    | sendMessageError m =>
      constructor
      · intro m' _
        rfl
      · intro e' he hnsm
        dsimp only at he
        injection he with h
        subst h
        exact absurd rfl (hnsm m)
    | typeError m =>
      constructor
      · intro m' hm
        simp at hm
      · intro e' he hnsm
        dsimp only at he
        injection he with h
        subst h
        dsimp only [exceptDispatch]
        constructor
        · intro hnem
          rw [if_pos hnem]
          cases htg : env.tgFails with
          | true => simp [send_message]
          | false => simp [send_message]
        · intro heq
          rw [if_neg (by simp [heq])]
    | keyError m =>
      constructor
      · intro m' hm
        simp at hm
      · intro e' he hnsm
        dsimp only at he
        injection he with h
        subst h
        dsimp only [exceptDispatch]
        constructor
        · intro hnem
          rw [if_pos hnem]
          cases htg : env.tgFails with
          | true => simp [send_message]
          | false => simp [send_message]
        · intro heq
          rw [if_neg (by simp [heq])]
    | apiAnswerError m =>
      constructor
      · intro m' hm
        simp at hm
      · intro e' he hnsm
        dsimp only at he
        injection he with h
        subst h
        dsimp only [exceptDispatch]
        constructor
        · intro hnem
          rw [if_pos hnem]
          cases htg : env.tgFails with
          | true => simp [send_message]
          | false => simp [send_message]
        · intro heq
          rw [if_neg (by simp [heq])]

/-- Witness for C7: a failing send of a status message is caught and
only logged (the iteration continues, exactly one invocation); a
transport failure whose error notification also fails to send
terminates the process. -/
theorem loop_failure_handling_witness :
    stepIter ⟨0, .resp ⟨200, .dict [("homeworks",
        .list [.dict [("homework_name", .str "hw1"), ("status", .str "approved")]])]⟩, true⟩
      (initState 5) =
      ⟨some ⟨.int 5,
          "Изменился статус проверки работы \"hw1\". Работа проверена: ревьюеру всё понравилось. Ура!"⟩,
        ["Изменился статус проверки работы \"hw1\". Работа проверена: ревьюеру всё понравилось. Ура!"],
        (tryBody ⟨0, .resp ⟨200, .dict [("homeworks",
            .list [.dict [("homework_name", .str "hw1"), ("status", .str "approved")]])]⟩, true⟩
          (initState 5)).logs ++ [⟨.error, telegramFailMsg⟩]⟩ ∧
    (stepIter ⟨0, .exn, true⟩ (initState 5)).state = Option.none := by
  constructor
  · exact (loop_failure_handling
      (⟨0, .resp ⟨200, .dict [("homeworks",
          .list [.dict [("homework_name", .str "hw1"), ("status", .str "approved")]])]⟩,
        true⟩ : Env)
      (initState 5)).1 telegramFailMsg rfl
  · have h := (loop_failure_handling (⟨0, .exn, true⟩ : Env) (initState 5)).2
      _ rfl (fun m hm => nomatch hm)
    exact (h.1 (by decide)).2.2.mpr rfl

/-- The `except` handlers never touch the cursor: any continuing state
keeps the cursor the `try` block left. -/
lemma stepIter_cursor (env : Env) (s : LoopState) :
    ∀ s', (stepIter env s).state = some s' →
      s'.current_timestamp = (tryBody env s).state.current_timestamp := by
  rcases htb : tryBody env s with ⟨logs, sends, st, exc⟩
  rw [stepIter_eq env s logs sends st exc htb]
  cases exc with
  | none =>
    intro s' hs'
    cases hs'
    rfl
  | some e =>
    cases e with
    | sendMessageError m =>
      intro s' hs'
      cases hs'
      rfl
    | typeError m =>
      dsimp only [exceptDispatch]
      split
      · split
        · intro s' hs'; cases hs'; rfl
        · intro s' hs'; cases hs'
      · intro s' hs'; cases hs'; rfl
    | keyError m =>
      dsimp only [exceptDispatch]
      split
      · split
        · intro s' hs'; cases hs'; rfl
        · intro s' hs'; cases hs'
      · intro s' hs'; cases hs'; rfl
    | apiAnswerError m =>
      dsimp only [exceptDispatch]
      split
      · split
        · intro s' hs'; cases hs'; rfl
        · intro s' hs'; cases hs'
      · intro s' hs'; cases hs'; rfl

/-- After a successful fetch and validation, the `try` block's state
carries the cursor updated by `response.get('current_date', cursor)`. -/
lemma tryBody_cursor_ok (env : Env) (s : LoopState) (response : PyVal)
    (hws : List PyVal)
    (hga : (get_api_answer env.now env.transport s.current_timestamp).2 = .ok response)
    (hcr : (check_response response).2 = .ok hws) :
    (tryBody env s).state.current_timestamp =
      pyDictGetD response "current_date" s.current_timestamp := by
  simp only [tryBody, hga, hcr]
  repeat' split
  all_goals rfl

/-- When the fetch or the validation fails, the `try` block leaves the
whole state unchanged. -/
lemma tryBody_state_fail (env : Env) (s : LoopState)
    (h : (∃ e, (get_api_answer env.now env.transport s.current_timestamp).2 = .error e) ∨
      (∃ response e,
        (get_api_answer env.now env.transport s.current_timestamp).2 = .ok response ∧
        (check_response response).2 = .error e)) :
    (tryBody env s).state = s := by
  rcases h with ⟨e, hga⟩ | ⟨response, e, hga, hcr⟩
  · simp only [tryBody, hga]
  · simp only [tryBody, hga, hcr]

/-! ## Claim about the poll cursor -/

/-- C2 counterexample: the claim says the cursor "only advances
forward in time" after the first cycle, but the code adopts whatever
`current_date` the server supplies: after a first cycle that set the
cursor to the server-supplied 2000, a second cycle whose response
carries `current_date = 5` moves the cursor backward to 5. -/
theorem cursor_not_monotone_counterexample :
    (stepIter ⟨0, .resp ⟨200, .dict [("homeworks", .list []), ("current_date", .int 2000)]⟩,
        false⟩ (initState 1000)).state = some ⟨.int 2000, ""⟩ ∧
    (stepIter ⟨0, .resp ⟨200, .dict [("homeworks", .list []), ("current_date", .int 5)]⟩,
        false⟩ ⟨.int 2000, ""⟩).state = some ⟨.int 5, ""⟩ ∧
    (5 : Int) < 2000 :=
  ⟨rfl, rfl, by decide⟩

/-- C2 (amended): the cursor is initialized to the current time at
startup, is set after each successful fetch to the response's
`current_date` value (whatever the server supplies — with no
forward-monotonicity guarantee) and is left unchanged when the fetch or
validation fails; and the `from_date` query parameter of a request
equals the stored cursor whenever that cursor is truthy (as every
server-supplied timestamp after the first cycle normally is), the
current time being used only for a falsy cursor. -/
theorem cursor_update_spec :
    (∀ now0 : Int, (initState now0).current_timestamp = .int now0) ∧
    (∀ (env : Env) (s : LoopState) (response : PyVal) (hws : List PyVal),
      (get_api_answer env.now env.transport s.current_timestamp).2 = .ok response →
      (check_response response).2 = .ok hws →
      ∀ s', (stepIter env s).state = some s' →
        s'.current_timestamp = pyDictGetD response "current_date" s.current_timestamp) ∧
    (∀ (env : Env) (s : LoopState),
      ((∃ e, (get_api_answer env.now env.transport s.current_timestamp).2 = .error e) ∨
        (∃ response e,
          (get_api_answer env.now env.transport s.current_timestamp).2 = .ok response ∧
          (check_response response).2 = .error e)) →
      ∀ s', (stepIter env s).state = some s' →
        s'.current_timestamp = s.current_timestamp) ∧
    (∀ (now : Int) (ct : PyVal), pyTruthy ct = true →
      requestParams now ct = .dict [("from_date", ct)]) := by
  refine ⟨fun now0 => rfl, ?_, ?_, ?_⟩
  · intro env s response hws hga hcr s' hs'
    rw [stepIter_cursor env s s' hs', tryBody_cursor_ok env s response hws hga hcr]
  · intro env s h s' hs'
    rw [stepIter_cursor env s s' hs', tryBody_state_fail env s h]
  · intro now ct h
    simp [requestParams, pyOr, h]

/-- Witness for the amended C2: the initial cursor, a concrete
successful fetch updating the cursor from `current_date`, a concrete
failing fetch leaving it unchanged, and a truthy cursor used verbatim
as `from_date`. -/
theorem cursor_update_spec_witness :
    (initState 42).current_timestamp = .int 42 ∧
    LoopState.current_timestamp ⟨.int 2000, ""⟩ =
      pyDictGetD (.dict [("homeworks", .list []), ("current_date", .int 2000)])
        "current_date" (initState 1000).current_timestamp ∧
    LoopState.current_timestamp
        ⟨.int 7,
          "Сбой в работе программы: Ошибка при запросе к эндпоинту: https://practicum.yandex.ru/api/user_api/homework_statuses/,параметры запроса: \x7b'from_date': 7\x7d"⟩ =
      (initState 7).current_timestamp ∧
    requestParams 0 (.int 5) = .dict [("from_date", .int 5)] := by
  refine ⟨cursor_update_spec.1 42, ?_, ?_, cursor_update_spec.2.2.2 0 (.int 5) rfl⟩
  · exact cursor_update_spec.2.1
      ⟨0, .resp ⟨200, .dict [("homeworks", .list []), ("current_date", .int 2000)]⟩, false⟩
      (initState 1000)
      (.dict [("homeworks", .list []), ("current_date", .int 2000)]) [] rfl rfl
      ⟨.int 2000, ""⟩ rfl
  · exact cursor_update_spec.2.2.1 ⟨0, .exn, false⟩ (initState 7)
      (Or.inl ⟨_, rfl⟩) _ rfl
